import Mathlib

/-!
Shallow embedding of the kyzu interactive 3D viewer core
(repository `jcrutchy/kyzu`, crate `kyzu-native`).

The embedding translates the Rust sources into Lean definitions:
`f32` arithmetic is modelled by exact real arithmetic on `ℝ`,
`glam::Vec3` / `glam::Mat4` by component structures, and the
wgpu render-pass recording by an explicit command list.

Source files embedded here:
- `src/kyzu-native/src/camera/spherical.rs` (Camera, orbit/zoom/pan,
  eye_position, compute_right/compute_up, view/projection matrices)
- `src/kyzu-native/src/camera/uniform.rs`   (CameraUniform layout)
- `src/kyzu-native/src/input/mod.rs`        (InputState)
- `src/kyzu-native/src/input/camera_control.rs` (apply_input_to_camera)
- `src/kyzu-native/src/renderer/core.rs`    (pipelines, record_render_pass)
- `src/kyzu-native/src/renderer/grid.rs`    (GridUniform layout, grid pipeline)
- `src/kyzu-native/src/renderer/axes.rs`    (axes pipeline)
- `src/kyzu-native/src/renderer/debug.rs`   (DebugMesh::update)
-/

namespace Kyzu

noncomputable section

/-! ## Vectors (glam::Vec3 / glam::Vec4, components as reals) -/

/-- Embedding of `glam::Vec3`: three `f32` components, modelled as reals. -/
@[ext]
structure Vec3 where
  x : ℝ
  y : ℝ
  z : ℝ

instance : Add Vec3 := ⟨fun a b => ⟨a.x + b.x, a.y + b.y, a.z + b.z⟩⟩

instance : Sub Vec3 := ⟨fun a b => ⟨a.x - b.x, a.y - b.y, a.z - b.z⟩⟩

instance : SMul ℝ Vec3 := ⟨fun r v => ⟨r * v.x, r * v.y, r * v.z⟩⟩

@[simp]
lemma Vec3.add_def (a b : Vec3) : a + b = ⟨a.x + b.x, a.y + b.y, a.z + b.z⟩ := rfl

@[simp]
lemma Vec3.sub_def (a b : Vec3) : a - b = ⟨a.x - b.x, a.y - b.y, a.z - b.z⟩ := rfl

@[simp]
lemma Vec3.smul_def (r : ℝ) (v : Vec3) : r • v = ⟨r * v.x, r * v.y, r * v.z⟩ := rfl

/-- `Vec3::ZERO`. -/
def Vec3.zero : Vec3 := ⟨0, 0, 0⟩

/-- `Vec3::Z`, the world up direction (Z-up convention of the camera module). -/
def Vec3.unitZ : Vec3 := ⟨0, 0, 1⟩

/-- `glam` dot product. -/
def Vec3.dot (a b : Vec3) : ℝ := a.x * b.x + a.y * b.y + a.z * b.z

/-- `glam` cross product. -/
def Vec3.cross (a b : Vec3) : Vec3 :=
  ⟨a.y * b.z - a.z * b.y, a.z * b.x - a.x * b.z, a.x * b.y - a.y * b.x⟩

/-- `glam` vector length: `sqrt (v · v)`. -/
def Vec3.length (v : Vec3) : ℝ := Real.sqrt (v.dot v)

/-- `glam` `normalize`: the vector scaled by the reciprocal of its length
(in the exact real model, `v / ‖v‖`; for `v = 0` Lean's `1 / 0 = 0`
convention yields the zero vector). -/
def Vec3.normalize (v : Vec3) : Vec3 := (1 / v.length) • v

/-! ## Camera (camera/spherical.rs) -/

/-- Embedding of `Camera` from `camera/spherical.rs`. -/
@[ext]
structure Camera where
  target : Vec3
  radius : ℝ
  azimuth : ℝ
  elevation : ℝ
  aspect : ℝ
  fovy : ℝ

/-- `RADIUS_MIN` from `camera/spherical.rs` (`0.0001`). -/
def RADIUS_MIN : ℝ := 0.0001

/-- `RADIUS_MAX` from `camera/spherical.rs` (`100_000_000.0`). -/
def RADIUS_MAX : ℝ := 100000000

/-- `ELEVATION_MIN` from `camera/spherical.rs` (`0.01`). -/
def ELEVATION_MIN : ℝ := 0.01

/-- `ELEVATION_MAX` from `camera/spherical.rs` (`π/2 - 0.01`). -/
def ELEVATION_MAX : ℝ := Real.pi / 2 - 0.01

/-- Rust `f32::clamp(self, min, max)`: `min` if `self < min`, `max` if
`self > max`, otherwise `self` (exact-real model, no NaN). -/
def clamp (x lo hi : ℝ) : ℝ := if x < lo then lo else if x > hi then hi else x

/-- `Camera::new(aspect)`. -/
def Camera.new (aspect : ℝ) : Camera :=
  { target := Vec3.zero
    radius := 20
    azimuth := -(Real.pi / 4)
    elevation := Real.pi / 6
    aspect := aspect
    fovy := Real.pi / 4 }

/-- `Camera::set_aspect`. -/
def Camera.set_aspect (c : Camera) (aspect : ℝ) : Camera := { c with aspect := aspect }

/-- `Camera::orbit(delta_az, delta_el)`. -/
def Camera.orbit (c : Camera) (delta_az delta_el : ℝ) : Camera :=
  { c with
    azimuth := c.azimuth + delta_az
    elevation := clamp (c.elevation + delta_el) ELEVATION_MIN ELEVATION_MAX }

/-- `Camera::zoom(factor)`. -/
def Camera.zoom (c : Camera) (factor : ℝ) : Camera :=
  { c with radius := clamp (c.radius * factor) RADIUS_MIN RADIUS_MAX }

/-- Free function `eye_position(cam)` from `camera/spherical.rs`. -/
def eye_position (c : Camera) : Vec3 :=
  c.target +
    ⟨c.radius * Real.cos c.elevation * Real.sin c.azimuth,
     c.radius * Real.cos c.elevation * Real.cos c.azimuth,
     c.radius * Real.sin c.elevation⟩

/-- `compute_right(eye, target)`: `(target - eye).normalize().cross(Vec3::Z).normalize()`. -/
def compute_right (eye target : Vec3) : Vec3 :=
  ((target - eye).normalize.cross Vec3.unitZ).normalize

/-- `compute_up(eye, target, right)`: `right.cross((target - eye).normalize()).normalize()`. -/
def compute_up (eye target right : Vec3) : Vec3 :=
  (right.cross (target - eye).normalize).normalize

/-- `Camera::pan(dx, dy)`: `target += right * dx + up * dy`. -/
def Camera.pan (c : Camera) (dx dy : ℝ) : Camera :=
  let eye := eye_position c
  let right := compute_right eye c.target
  let up := compute_up eye c.target right
  { c with target := c.target + (dx • right + dy • up) }

/-! ## Matrices (glam::Mat4, column-major) -/

/-- Embedding of `glam::Vec4`. -/
@[ext]
structure Vec4 where
  x : ℝ
  y : ℝ
  z : ℝ
  w : ℝ

/-- Embedding of `glam::Mat4` as four columns. -/
@[ext]
structure Mat4 where
  c0 : Vec4
  c1 : Vec4
  c2 : Vec4
  c3 : Vec4

/-- Matrix–vector product `m * v` (columns weighted by the components of `v`). -/
def Mat4.mulVec4 (m : Mat4) (v : Vec4) : Vec4 :=
  ⟨m.c0.x * v.x + m.c1.x * v.y + m.c2.x * v.z + m.c3.x * v.w,
   m.c0.y * v.x + m.c1.y * v.y + m.c2.y * v.z + m.c3.y * v.w,
   m.c0.z * v.x + m.c1.z * v.y + m.c2.z * v.z + m.c3.z * v.w,
   m.c0.w * v.x + m.c1.w * v.y + m.c2.w * v.z + m.c3.w * v.w⟩

/-- Matrix product `a * b`. -/
def Mat4.mul (a b : Mat4) : Mat4 :=
  ⟨a.mulVec4 b.c0, a.mulVec4 b.c1, a.mulVec4 b.c2, a.mulVec4 b.c3⟩

/-- `glam::Mat4::look_to_rh(eye, dir, up)`. -/
def look_to_rh (eye dir up : Vec3) : Mat4 :=
  let f := dir.normalize
  let s := (f.cross up).normalize
  let u := s.cross f
  ⟨⟨s.x, u.x, -f.x, 0⟩,
   ⟨s.y, u.y, -f.y, 0⟩,
   ⟨s.z, u.z, -f.z, 0⟩,
   ⟨-(eye.dot s), -(eye.dot u), eye.dot f, 1⟩⟩

/-- `glam::Mat4::look_at_rh(eye, center, up)`. -/
def look_at_rh (eye center up : Vec3) : Mat4 := look_to_rh eye (center - eye) up

/-- `glam::Mat4::perspective_rh(fov_y, aspect, z_near, z_far)`. -/
def perspective_rh (fovy aspect znear zfar : ℝ) : Mat4 :=
  let h := Real.cos (0.5 * fovy) / Real.sin (0.5 * fovy)
  let w := h / aspect
  let r := zfar / (znear - zfar)
  ⟨⟨w, 0, 0, 0⟩, ⟨0, h, 0, 0⟩, ⟨0, 0, r, -1⟩, ⟨0, 0, r * znear, 0⟩⟩

/-- `build_view_matrix(cam)` from `camera/spherical.rs`. -/
def build_view_matrix (c : Camera) : Mat4 :=
  look_at_rh (eye_position c) c.target Vec3.unitZ

/-- `build_projection_matrix(cam)`: near/far planes scaled with `radius`,
each floored to a minimum. -/
def build_projection_matrix (c : Camera) : Mat4 :=
  perspective_rh c.fovy c.aspect (max (c.radius * 0.01) 0.0001)
    (max (c.radius * 100) 10000)

/-- `Camera::build_view_proj()`: projection times view. -/
def Camera.build_view_proj (c : Camera) : Mat4 :=
  (build_projection_matrix c).mul (build_view_matrix c)

/-! ## Input state and input-to-camera mapping (input/mod.rs, input/camera_control.rs) -/

/-- Embedding of `InputState` from `input/mod.rs`. -/
structure InputState where
  mouse_x : ℝ
  mouse_y : ℝ
  mouse_dx : ℝ
  mouse_dy : ℝ
  left_held : Bool
  middle_held : Bool
  right_held : Bool
  scroll : ℝ
  shift_held : Bool

/-- `ORBIT_SENSITIVITY` from `input/camera_control.rs` (`0.005`). -/
def ORBIT_SENSITIVITY : ℝ := 0.005

/-- `PAN_SENSITIVITY` from `input/camera_control.rs` (`0.002`). -/
def PAN_SENSITIVITY : ℝ := 0.002

/-- `ZOOM_FACTOR` from `input/camera_control.rs` (`0.1`). -/
def ZOOM_FACTOR : ℝ := 0.1

/-- `apply_orbit` from `input/camera_control.rs`
(the early `return`s are written as nested guards). -/
def apply_orbit (input : InputState) (camera : Camera) : Camera :=
  if input.right_held then
    if input.mouse_dx = 0 ∧ input.mouse_dy = 0 then camera
    else
      camera.orbit (-input.mouse_dx * ORBIT_SENSITIVITY)
        (input.mouse_dy * ORBIT_SENSITIVITY)
  else camera

/-- `apply_pan` from `input/camera_control.rs`: pan distance scaled by
`radius * PAN_SENSITIVITY`. -/
def apply_pan (input : InputState) (camera : Camera) : Camera :=
  if input.middle_held then
    if input.mouse_dx = 0 ∧ input.mouse_dy = 0 then camera
    else
      let scale := camera.radius * PAN_SENSITIVITY
      camera.pan (-input.mouse_dx * scale) (input.mouse_dy * scale)
  else camera

/-- `apply_zoom` from `input/camera_control.rs`: `factor = 1 - scroll * ZOOM_FACTOR`. -/
def apply_zoom (input : InputState) (camera : Camera) : Camera :=
  if input.scroll = 0 then camera
  else camera.zoom (1 - input.scroll * ZOOM_FACTOR)

/-- `apply_input_to_camera`: applies orbit, then pan, then zoom. -/
def apply_input_to_camera (input : InputState) (camera : Camera) : Camera :=
  apply_zoom input (apply_pan input (apply_orbit input camera))

/-! ## Grid LOD derivation (modelled from the spec) -/

/-- Modelled from the spec: the grid LOD derivation of §4.3 (GridLOD) is not in
the Rust sources under `src/` — it is performed in the grid shader (`grid.wgsl`,
referenced by `include_str!` from `renderer/grid.rs` but not part of the provided
sources); the `grid_lod_scale` / `grid_lod_fade` fields of `Renderer` in
`renderer/core.rs` are GUI display placeholders initialised to `1.0`. Following
the spec's words: `continuousLog = log10(radius / REFERENCE_SPACING)`. -/
def continuousLog (radius refSpacing : ℝ) : ℝ := Real.logb 10 (radius / refSpacing)

/-- Modelled from the spec: `lodLevel = floor(continuousLog)`. -/
def lodLevel (radius refSpacing : ℝ) : ℤ := ⌊continuousLog radius refSpacing⌋

/-- Modelled from the spec: `lodScale = 10^lodLevel`. -/
def lodScale (radius refSpacing : ℝ) : ℝ := (10 : ℝ) ^ lodLevel radius refSpacing

/-- Modelled from the spec: `lodFade = continuousLog - lodLevel`. -/
def lodFade (radius refSpacing : ℝ) : ℝ :=
  continuousLog radius refSpacing - lodLevel radius refSpacing

/-! ## Debug target markers (renderer/debug.rs) -/

/-- `MARKER_ARM` from `renderer/debug.rs` (`0.3`). -/
def MARKER_ARM : ℝ := 0.3

/-- `COL_TARGET`: white, the camera-target cross colour. -/
def COL_TARGET : Vec3 := ⟨1, 1, 1⟩

/-- `COL_PROJ`: yellow, the XY-plane projection cross colour. -/
def COL_PROJ : Vec3 := ⟨1, 1, 0.2⟩

/-- `COL_CONNECT`: grey, the vertical connecting line colour. -/
def COL_CONNECT : Vec3 := ⟨0.5, 0.5, 0.5⟩

/-- `Z_THRESHOLD` from `renderer/debug.rs`: minimum Z offset before the
projection cross and connecting line are drawn (`0.001`). -/
def Z_THRESHOLD : ℝ := 0.001

/-- Vertex layout `[x, y, z, r, g, b]` shared by the axes and debug meshes. -/
@[ext]
structure LineVertex where
  px : ℝ
  py : ℝ
  pz : ℝ
  cr : ℝ
  cg : ℝ
  cb : ℝ

/-- `make_vertex(pos, col)` from `renderer/debug.rs`. -/
def make_vertex (pos col : Vec3) : LineVertex :=
  ⟨pos.x, pos.y, pos.z, col.x, col.y, col.z⟩

/-- `push_cross(verts, centre, col)`: the six vertices of a 3-axis cross. -/
def push_cross (centre col : Vec3) : List LineVertex :=
  [make_vertex ⟨centre.x - MARKER_ARM, centre.y, centre.z⟩ col,
   make_vertex ⟨centre.x + MARKER_ARM, centre.y, centre.z⟩ col,
   make_vertex ⟨centre.x, centre.y - MARKER_ARM, centre.z⟩ col,
   make_vertex ⟨centre.x, centre.y + MARKER_ARM, centre.z⟩ col,
   make_vertex ⟨centre.x, centre.y, centre.z - MARKER_ARM⟩ col,
   make_vertex ⟨centre.x, centre.y, centre.z + MARKER_ARM⟩ col]

/-- The vertex list built by `DebugMesh::update` for a camera with the given
`target`: a white cross at the target, plus — only when `|target.z|` exceeds
`Z_THRESHOLD` — a yellow cross at the ground projection and a grey line
connecting target and projection. -/
def debug_update_verts (target : Vec3) : List LineVertex :=
  let proj : Vec3 := ⟨target.x, target.y, 0⟩
  push_cross target COL_TARGET ++
    (if |target.z| > Z_THRESHOLD then
      push_cross proj COL_PROJ ++
        [make_vertex target COL_CONNECT, make_vertex proj COL_CONNECT]
    else [])

/-- `DebugMesh.vertex_count` as set by `update`. -/
def debug_vertex_count (target : Vec3) : ℕ := (debug_update_verts target).length

/-! ## Render pipelines and the render pass (renderer/core.rs, axes.rs, grid.rs) -/

/-- The wgpu depth compare functions used by this renderer's pipelines. -/
inductive CompareFunction where
  | Less
  | LessEqual
deriving DecidableEq

/-- The depth-stencil configuration of a render pipeline. -/
structure DepthStencilState where
  depth_write_enabled : Bool
  depth_compare : CompareFunction
deriving DecidableEq

/-- A render pipeline as relevant to draw ordering: label and depth state. -/
structure PipelineDesc where
  label : String
  depth_stencil : DepthStencilState
deriving DecidableEq

/-- `create_cube_pipeline` (renderer/core.rs): depth write enabled, compare Less. -/
def cube_pipeline : PipelineDesc :=
  ⟨"Cube Pipeline", ⟨true, CompareFunction.Less⟩⟩

/-- `create_axes_pipeline` (renderer/axes.rs): depth write enabled, compare Less;
shared by the axes mesh and the debug markers. -/
def axes_pipeline : PipelineDesc :=
  ⟨"Axes Pipeline", ⟨true, CompareFunction.Less⟩⟩

/-- `create_grid_pipeline` (renderer/grid.rs): depth write disabled, compare
LessEqual, alpha blending. -/
def grid_pipeline : PipelineDesc :=
  ⟨"Grid Pipeline", ⟨false, CompareFunction.LessEqual⟩⟩

/-- Commands recorded into the single render pass. -/
inductive RenderCmd where
  | setPipeline (p : PipelineDesc)
  | setBindGroup (label : String)
  | setVertexBuffer (label : String)
  | setIndexBuffer (label : String)
  | drawIndexed (index_count : ℕ)
  | draw (vertex_count : ℕ)
deriving DecidableEq

/-- `record_render_pass` (renderer/core.rs): the command stream of the single
render pass — cube, then axes, then (when non-empty) debug markers on the axes
pipeline, then the grid — parameterised by the mesh sizes. -/
def record_render_pass (cube_index_count axes_vertex_count dbg_vertex_count : ℕ) :
    List RenderCmd :=
  [RenderCmd.setPipeline cube_pipeline,
   RenderCmd.setBindGroup "Camera BG",
   RenderCmd.setVertexBuffer "Cube Vertex Buffer",
   RenderCmd.setIndexBuffer "Cube Index Buffer",
   RenderCmd.drawIndexed cube_index_count,
   RenderCmd.setPipeline axes_pipeline,
   RenderCmd.setBindGroup "Camera BG",
   RenderCmd.setVertexBuffer "Axes Vertex Buffer",
   RenderCmd.draw axes_vertex_count] ++
  (if 0 < dbg_vertex_count then
    [RenderCmd.setVertexBuffer "Debug Vertex Buffer",
     RenderCmd.draw dbg_vertex_count]
  else []) ++
  [RenderCmd.setPipeline grid_pipeline,
   RenderCmd.setBindGroup "Grid BG",
   RenderCmd.draw 3]

/-- The pipeline in effect at each draw call of a command stream. -/
def draw_pipelines : List RenderCmd → Option PipelineDesc → List (Option PipelineDesc)
  | [], _ => []
  | RenderCmd.setPipeline p :: rest, _ => draw_pipelines rest (some p)
  | RenderCmd.draw _ :: rest, cur => cur :: draw_pipelines rest cur
  | RenderCmd.drawIndexed _ :: rest, cur => cur :: draw_pipelines rest cur
  | RenderCmd.setBindGroup _ :: rest, cur => draw_pipelines rest cur
  | RenderCmd.setVertexBuffer _ :: rest, cur => draw_pipelines rest cur
  | RenderCmd.setIndexBuffer _ :: rest, cur => draw_pipelines rest cur

/-! ## Uniform block layouts (camera/uniform.rs, renderer/grid.rs) -/

/-- The field types of the `#[repr(C)]` uniform structs; all are 4-byte-aligned
`f32` aggregates, so `repr(C)` inserts no implicit padding between them. -/
inductive FieldTy where
  | f32
  | vec3f
  | mat4x4f
  | arr2f32
deriving DecidableEq

/-- Byte size of each field type (`f32` 4, `[f32; 3]` 12, `[[f32; 4]; 4]` 64,
`[f32; 2]` 8). -/
def FieldTy.byteSize : FieldTy → ℕ
  | FieldTy.f32 => 4
  | FieldTy.vec3f => 12
  | FieldTy.mat4x4f => 64
  | FieldTy.arr2f32 => 8

/-- One declared field of a uniform struct; `is_padding` marks the explicit
`_pad` fields. -/
structure UniformField where
  name : String
  ty : FieldTy
  is_padding : Bool
deriving DecidableEq

/-- `GridUniform` (renderer/grid.rs), field by field in declaration order. -/
def gridUniformFields : List UniformField :=
  [⟨"view_proj", FieldTy.mat4x4f, false⟩,
   ⟨"inv_view_proj", FieldTy.mat4x4f, false⟩,
   ⟨"eye_pos", FieldTy.vec3f, false⟩,
   ⟨"_pad0", FieldTy.f32, true⟩,
   ⟨"fade_near", FieldTy.f32, false⟩,
   ⟨"fade_far", FieldTy.f32, false⟩,
   ⟨"_pad1", FieldTy.arr2f32, true⟩]

/-- `CameraUniform` (camera/uniform.rs): a single 4×4 transform. -/
def cameraUniformFields : List UniformField :=
  [⟨"view_proj", FieldTy.mat4x4f, false⟩]

/-- Total byte size of a `repr(C)` struct of 4-byte-aligned fields. -/
def structByteSize (fs : List UniformField) : ℕ :=
  (fs.map fun f => f.ty.byteSize).sum

/-- Byte offset of every field, in declaration order, starting at `off`. -/
def fieldOffsets : List UniformField → ℕ → List ℕ
  | [], _ => []
  | f :: rest, off => off :: fieldOffsets rest (off + f.ty.byteSize)

/-- The build-time assert in `renderer/grid.rs`:
`const _: () = assert!(size_of::<GridUniform>() == 160)`. -/
def GRID_UNIFORM_ASSERTED_SIZE : ℕ := 160

/-- The build-time assert in `camera/uniform.rs`:
`const _: () = assert!(size_of::<CameraUniform>() == 64)`. -/
def CAMERA_UNIFORM_ASSERTED_SIZE : ℕ := 64

/-- Number of non-padding scalar (`f32`) parameter fields of a uniform struct. -/
def scalarParamCount (fs : List UniformField) : ℕ :=
  (fs.filter fun f => !f.is_padding && f.ty == FieldTy.f32).length

end

/-! ## Helper lemmas -/

noncomputable section

lemma clamp_le_hi (x lo hi : ℝ) (h : lo ≤ hi) : clamp x lo hi ≤ hi := by
  unfold clamp
  split_ifs <;> linarith

lemma lo_le_clamp (x lo hi : ℝ) (h : lo ≤ hi) : lo ≤ clamp x lo hi := by
  unfold clamp
  split_ifs <;> linarith

lemma clamp_of_mem (x lo hi : ℝ) (h1 : lo ≤ x) (h2 : x ≤ hi) : clamp x lo hi = x := by
  unfold clamp
  split_ifs <;> linarith

lemma elevation_min_le_max : ELEVATION_MIN ≤ ELEVATION_MAX := by
  have h := Real.pi_gt_three
  unfold ELEVATION_MIN ELEVATION_MAX
  linarith

lemma Mat4.mul_mulVec4 (a b : Mat4) (v : Vec4) :
    (a.mul b).mulVec4 v = a.mulVec4 (b.mulVec4 v) := by
  unfold Mat4.mul Mat4.mulVec4
  ext <;> dsimp <;> ring

lemma proj_preserves_zero_x (c : Camera) (V : Vec4) (h : V.x = 0) :
    ((build_projection_matrix c).mulVec4 V).x = 0 := by
  simp only [build_projection_matrix, perspective_rh, Mat4.mulVec4]
  rw [h]
  ring

lemma proj_preserves_zero_y (c : Camera) (V : Vec4) (h : V.y = 0) :
    ((build_projection_matrix c).mulVec4 V).y = 0 := by
  simp only [build_projection_matrix, perspective_rh, Mat4.mulVec4]
  rw [h]
  ring

lemma look_at_target_xy (eye target : Vec3) :
    ((look_at_rh eye target Vec3.unitZ).mulVec4 ⟨target.x, target.y, target.z, 1⟩).x = 0 ∧
    ((look_at_rh eye target Vec3.unitZ).mulVec4 ⟨target.x, target.y, target.z, 1⟩).y = 0 := by
  unfold look_at_rh look_to_rh Mat4.mulVec4 Vec3.normalize Vec3.length Vec3.cross
    Vec3.dot Vec3.unitZ
  simp only [Vec3.sub_def, Vec3.smul_def]
  constructor <;> dsimp <;> ring

/-- C1: `zoom(factor)` sets `radius` to `clamp(old_radius * factor, RADIUS_MIN,
RADIUS_MAX)`; hence after every zoom `RADIUS_MIN ≤ radius ≤ RADIUS_MAX` holds,
and in particular from the default `radius = 20`, `zoom(2.0)` gives `radius = 40`
and `zoom(1e12)` gives `radius = RADIUS_MAX` (clamped, not overflowed). -/
theorem claim_C1_zoom_clamps_radius :
    (∀ (c : Camera) (factor : ℝ),
        (c.zoom factor).radius = clamp (c.radius * factor) RADIUS_MIN RADIUS_MAX) ∧
    (∀ (c : Camera) (factor : ℝ),
        RADIUS_MIN ≤ (c.zoom factor).radius ∧ (c.zoom factor).radius ≤ RADIUS_MAX) ∧
    ((Camera.new 1).zoom 2).radius = 40 ∧
    ((Camera.new 1).zoom 1000000000000).radius = RADIUS_MAX := by
  have hb : RADIUS_MIN ≤ RADIUS_MAX := by unfold RADIUS_MIN RADIUS_MAX; norm_num
  refine ⟨fun c factor => rfl,
    fun c factor => ⟨lo_le_clamp _ _ _ hb, clamp_le_hi _ _ _ hb⟩, ?_, ?_⟩
  · show clamp ((20 : ℝ) * 2) RADIUS_MIN RADIUS_MAX = 40
    rw [clamp_of_mem _ _ _ (by norm_num [RADIUS_MIN]) (by norm_num [RADIUS_MAX])]
    norm_num
  · show clamp ((20 : ℝ) * 1000000000000) RADIUS_MIN RADIUS_MAX = RADIUS_MAX
    norm_num [clamp, RADIUS_MIN, RADIUS_MAX]

/-- C2: `orbit(delta_az, delta_el)` adds `delta_az` to `azimuth` with no bound and
sets `elevation` to `clamp(old_elevation + delta_el, ELEVATION_MIN, ELEVATION_MAX)`;
hence the elevation bounds hold after every orbit, and `orbit(0.1, 0)` from the
default `azimuth = -π/4` gives `azimuth ≈ -0.6854` (within `0.001`) with
`elevation` unchanged. -/
theorem claim_C2_orbit_unbounded_azimuth_clamped_elevation :
    (∀ (c : Camera) (delta_az delta_el : ℝ),
        (c.orbit delta_az delta_el).azimuth = c.azimuth + delta_az) ∧
    (∀ (c : Camera) (delta_az delta_el : ℝ),
        (c.orbit delta_az delta_el).elevation
          = clamp (c.elevation + delta_el) ELEVATION_MIN ELEVATION_MAX) ∧
    (∀ (c : Camera) (delta_az delta_el : ℝ),
        ELEVATION_MIN ≤ (c.orbit delta_az delta_el).elevation ∧
        (c.orbit delta_az delta_el).elevation ≤ ELEVATION_MAX) ∧
    |((Camera.new 1).orbit 0.1 0).azimuth - (-0.6854)| < 0.001 ∧
    ((Camera.new 1).orbit 0.1 0).elevation = (Camera.new 1).elevation := by
  have hpi3 := Real.pi_gt_three
  refine ⟨fun c _ _ => rfl, fun c _ _ => rfl,
    fun c _ _ => ⟨lo_le_clamp _ _ _ elevation_min_le_max,
      clamp_le_hi _ _ _ elevation_min_le_max⟩, ?_, ?_⟩
  · have hlt := Real.pi_lt_d6
    have hgt := Real.pi_gt_d6
    show |(-(Real.pi / 4) + 0.1) - (-0.6854)| < 0.001
    rw [abs_lt]
    constructor <;> linarith
  · show clamp (Real.pi / 6 + 0) ELEVATION_MIN ELEVATION_MAX = Real.pi / 6
    rw [add_zero]
    exact clamp_of_mem _ _ _ (by unfold ELEVATION_MIN; linarith)
      (by unfold ELEVATION_MAX; linarith)

/-- C10: each camera operation mutates only its documented fields: `orbit` changes
only `azimuth` and `elevation`; `zoom` changes only `radius`; `pan` changes only
`target`; `set_aspect` changes only `aspect`; no operation ever changes `fovy`. -/
theorem claim_C10_camera_ops_touch_only_their_fields :
    ∀ (c : Camera) (a e f dx dy asp : ℝ),
      ((c.orbit a e).target = c.target ∧ (c.orbit a e).radius = c.radius ∧
        (c.orbit a e).aspect = c.aspect ∧ (c.orbit a e).fovy = c.fovy) ∧
      ((c.zoom f).target = c.target ∧ (c.zoom f).azimuth = c.azimuth ∧
        (c.zoom f).elevation = c.elevation ∧ (c.zoom f).aspect = c.aspect ∧
        (c.zoom f).fovy = c.fovy) ∧
      ((c.pan dx dy).radius = c.radius ∧ (c.pan dx dy).azimuth = c.azimuth ∧
        (c.pan dx dy).elevation = c.elevation ∧ (c.pan dx dy).aspect = c.aspect ∧
        (c.pan dx dy).fovy = c.fovy) ∧
      ((c.set_aspect asp).target = c.target ∧ (c.set_aspect asp).radius = c.radius ∧
        (c.set_aspect asp).azimuth = c.azimuth ∧
        (c.set_aspect asp).elevation = c.elevation ∧
        (c.set_aspect asp).fovy = c.fovy) :=
  fun _ _ _ _ _ _ _ =>
    ⟨⟨rfl, rfl, rfl, rfl⟩, ⟨rfl, rfl, rfl, rfl, rfl⟩,
     ⟨rfl, rfl, rfl, rfl, rfl⟩, ⟨rfl, rfl, rfl, rfl, rfl⟩⟩

/-- C5: `pan(dx, dy)` moves `target` by `right*dx + up*dy`, where
`right = normalize(forward × worldUp)` and `up = normalize(right × forward)`
with `forward = normalize(target - eye)`; `pan(dx, 0)` displaces `target` purely
along the view-aligned right vector, `pan(0, dy)` purely along the view-aligned
up vector, and both displacement directions are orthogonal to `forward`. -/
theorem claim_C5_pan_moves_target_in_view_plane :
    ∀ (c : Camera) (dx dy : ℝ),
      (c.pan dx dy).target
          = c.target + (dx • compute_right (eye_position c) c.target
              + dy • compute_up (eye_position c) c.target
                  (compute_right (eye_position c) c.target)) ∧
      (c.pan dx 0).target - c.target = dx • compute_right (eye_position c) c.target ∧
      (c.pan 0 dy).target - c.target
          = dy • compute_up (eye_position c) c.target
              (compute_right (eye_position c) c.target) ∧
      compute_right (eye_position c) c.target
          = ((c.target - eye_position c).normalize.cross Vec3.unitZ).normalize ∧
      compute_up (eye_position c) c.target (compute_right (eye_position c) c.target)
          = ((compute_right (eye_position c) c.target).cross
              (c.target - eye_position c).normalize).normalize ∧
      (compute_right (eye_position c) c.target).dot
          (c.target - eye_position c).normalize = 0 ∧
      (compute_up (eye_position c) c.target
          (compute_right (eye_position c) c.target)).dot
          (c.target - eye_position c).normalize = 0 := by
  intro c dx dy
  refine ⟨rfl, ?_, ?_, rfl, rfl, ?_, ?_⟩
  · show (c.target + (dx • compute_right (eye_position c) c.target
        + (0 : ℝ) • compute_up (eye_position c) c.target
            (compute_right (eye_position c) c.target))) - c.target
      = dx • compute_right (eye_position c) c.target
    ext <;> dsimp <;> ring
  · show (c.target + ((0 : ℝ) • compute_right (eye_position c) c.target
        + dy • compute_up (eye_position c) c.target
            (compute_right (eye_position c) c.target))) - c.target
      = dy • compute_up (eye_position c) c.target
          (compute_right (eye_position c) c.target)
    ext <;> dsimp <;> ring
  · unfold compute_right Vec3.normalize Vec3.length Vec3.cross Vec3.dot Vec3.unitZ
    simp only [Vec3.sub_def, Vec3.smul_def]
    ring
  · unfold compute_up compute_right Vec3.normalize Vec3.length Vec3.cross
      Vec3.dot Vec3.unitZ
    simp only [Vec3.sub_def, Vec3.smul_def]
    ring

/-- C6: for every valid camera state (positive radius and aspect, elevation within
its bounds), `build_view_proj` maps `target` to a clip-space point whose x and y
components are zero, and which therefore stays at x = y = 0 after perspective
division — the target is always screen-centered. -/
theorem claim_C6_view_proj_centers_target :
    ∀ c : Camera, 0 < c.radius → 0 < c.aspect →
      ELEVATION_MIN ≤ c.elevation → c.elevation ≤ ELEVATION_MAX →
      ((c.build_view_proj.mulVec4 ⟨c.target.x, c.target.y, c.target.z, 1⟩).x = 0 ∧
       (c.build_view_proj.mulVec4 ⟨c.target.x, c.target.y, c.target.z, 1⟩).y = 0 ∧
       (c.build_view_proj.mulVec4 ⟨c.target.x, c.target.y, c.target.z, 1⟩).x
          / (c.build_view_proj.mulVec4 ⟨c.target.x, c.target.y, c.target.z, 1⟩).w = 0 ∧
       (c.build_view_proj.mulVec4 ⟨c.target.x, c.target.y, c.target.z, 1⟩).y
          / (c.build_view_proj.mulVec4 ⟨c.target.x, c.target.y, c.target.z, 1⟩).w = 0) := by
  intro c _ _ _ _
  obtain ⟨hx, hy⟩ := look_at_target_xy (eye_position c) c.target
  have hVx : ((build_view_matrix c).mulVec4
      ⟨c.target.x, c.target.y, c.target.z, 1⟩).x = 0 := hx
  have hVy : ((build_view_matrix c).mulVec4
      ⟨c.target.x, c.target.y, c.target.z, 1⟩).y = 0 := hy
  have hcx : (c.build_view_proj.mulVec4 ⟨c.target.x, c.target.y, c.target.z, 1⟩).x = 0 := by
    show (((build_projection_matrix c).mul (build_view_matrix c)).mulVec4
      ⟨c.target.x, c.target.y, c.target.z, 1⟩).x = 0
    rw [Mat4.mul_mulVec4]
    exact proj_preserves_zero_x c _ hVx
  have hcy : (c.build_view_proj.mulVec4 ⟨c.target.x, c.target.y, c.target.z, 1⟩).y = 0 := by
    show (((build_projection_matrix c).mul (build_view_matrix c)).mulVec4
      ⟨c.target.x, c.target.y, c.target.z, 1⟩).y = 0
    rw [Mat4.mul_mulVec4]
    exact proj_preserves_zero_y c _ hVy
  exact ⟨hcx, hcy, by rw [hcx, zero_div], by rw [hcy, zero_div]⟩

/-- Witness for C6 at the default camera (`Camera::new(1.0)`): radius 20 and
aspect 1 are positive, elevation π/6 is within bounds, and the view-projection
matrix sends the target to x = y = 0 in clip space. -/
theorem claim_C6_witness :
    0 < (Camera.new 1).radius ∧ 0 < (Camera.new 1).aspect ∧
    ELEVATION_MIN ≤ (Camera.new 1).elevation ∧
    (Camera.new 1).elevation ≤ ELEVATION_MAX ∧
    (((Camera.new 1).build_view_proj.mulVec4
        ⟨(Camera.new 1).target.x, (Camera.new 1).target.y, (Camera.new 1).target.z, 1⟩).x = 0 ∧
     ((Camera.new 1).build_view_proj.mulVec4
        ⟨(Camera.new 1).target.x, (Camera.new 1).target.y, (Camera.new 1).target.z, 1⟩).y = 0 ∧
     ((Camera.new 1).build_view_proj.mulVec4
        ⟨(Camera.new 1).target.x, (Camera.new 1).target.y, (Camera.new 1).target.z, 1⟩).x
        / ((Camera.new 1).build_view_proj.mulVec4
            ⟨(Camera.new 1).target.x, (Camera.new 1).target.y, (Camera.new 1).target.z, 1⟩).w = 0 ∧
     ((Camera.new 1).build_view_proj.mulVec4
        ⟨(Camera.new 1).target.x, (Camera.new 1).target.y, (Camera.new 1).target.z, 1⟩).y
        / ((Camera.new 1).build_view_proj.mulVec4
            ⟨(Camera.new 1).target.x, (Camera.new 1).target.y, (Camera.new 1).target.z, 1⟩).w = 0) := by
  have h1 : 0 < (Camera.new 1).radius := by norm_num [Camera.new]
  have h2 : 0 < (Camera.new 1).aspect := by norm_num [Camera.new]
  have h3 : ELEVATION_MIN ≤ (Camera.new 1).elevation := by
    have := Real.pi_gt_three
    show ELEVATION_MIN ≤ Real.pi / 6
    unfold ELEVATION_MIN
    linarith
  have h4 : (Camera.new 1).elevation ≤ ELEVATION_MAX := by
    have := Real.pi_gt_three
    show Real.pi / 6 ≤ ELEVATION_MAX
    unfold ELEVATION_MAX
    linarith
  exact ⟨h1, h2, h3, h4, claim_C6_view_proj_centers_target (Camera.new 1) h1 h2 h3 h4⟩

lemma sqrt_three_sq : Real.sqrt 3 * Real.sqrt 3 = 3 :=
  Real.mul_self_sqrt (by norm_num)

lemma sqrt_three_pos : (0 : ℝ) < Real.sqrt 3 :=
  Real.sqrt_pos.mpr (by norm_num)

lemma eye_position_azimuth_zero (r dx0 asp fov : ℝ) :
    eye_position ⟨⟨0, 0, dx0⟩, r, 0, Real.pi / 6, asp, fov⟩
      = ⟨0, r * (Real.sqrt 3 / 2), dx0 + r * (1 / 2)⟩ := by
  unfold eye_position
  ext <;>
    simp [Real.sin_zero, Real.cos_zero, Real.cos_pi_div_six, Real.sin_pi_div_six]

lemma normalize_down_dir (r : ℝ) (hr : 0 < r) :
    (Vec3.mk 0 0 0 - Vec3.mk 0 (r * (Real.sqrt 3 / 2)) (0 + r * (1 / 2))).normalize
      = ⟨0, -(Real.sqrt 3 / 2), -(1 / 2)⟩ := by
  have hdot :
      (Vec3.mk 0 0 0 - Vec3.mk 0 (r * (Real.sqrt 3 / 2)) (0 + r * (1 / 2))).dot
        (Vec3.mk 0 0 0 - Vec3.mk 0 (r * (Real.sqrt 3 / 2)) (0 + r * (1 / 2)))
      = r * r := by
    unfold Vec3.dot
    simp only [Vec3.sub_def]
    have h3 := sqrt_three_sq
    nlinarith [h3]
  unfold Vec3.normalize Vec3.length
  rw [hdot, Real.sqrt_mul_self hr.le]
  ext <;> simp <;> field_simp

lemma compute_right_azimuth_zero (r : ℝ) (hr : 0 < r) :
    compute_right (Vec3.mk 0 (r * (Real.sqrt 3 / 2)) (0 + r * (1 / 2)))
        (Vec3.mk 0 0 0)
      = ⟨-1, 0, 0⟩ := by
  unfold compute_right
  rw [normalize_down_dir r hr]
  have hcross :
      (Vec3.mk 0 (-(Real.sqrt 3 / 2)) (-(1 / 2))).cross Vec3.unitZ
        = ⟨-(Real.sqrt 3 / 2), 0, 0⟩ := by
    unfold Vec3.cross Vec3.unitZ
    ext <;> dsimp <;> ring
  rw [hcross]
  have hlen : (Vec3.mk (-(Real.sqrt 3 / 2)) 0 0).length = Real.sqrt 3 / 2 := by
    unfold Vec3.length Vec3.dot
    have h34 :
        -(Real.sqrt 3 / 2) * -(Real.sqrt 3 / 2) + (0 : ℝ) * 0 + (0 : ℝ) * 0
          = (Real.sqrt 3 / 2) ^ 2 := by ring
    rw [h34, Real.sqrt_sq (by positivity)]
  unfold Vec3.normalize
  rw [hlen]
  have hne : Real.sqrt 3 ≠ 0 := ne_of_gt sqrt_three_pos
  ext <;> dsimp <;> (field_simp; try ring)

lemma pan_target_x_azimuth_zero (r dx dy asp fov : ℝ) (hr : 0 < r) :
    (Camera.pan ⟨⟨0, 0, 0⟩, r, 0, Real.pi / 6, asp, fov⟩ dx dy).target.x = -dx := by
  unfold Camera.pan
  dsimp only
  rw [eye_position_azimuth_zero, compute_right_azimuth_zero r hr]
  have hupx :
      (compute_up (Vec3.mk 0 (r * (Real.sqrt 3 / 2)) (0 + r * (1 / 2)))
          (Vec3.mk 0 0 0) ⟨-1, 0, 0⟩).x = 0 := by
    unfold compute_up
    rw [normalize_down_dir r hr]
    unfold Vec3.normalize Vec3.length Vec3.cross Vec3.dot
    dsimp
    ring
  simp only [Vec3.add_def, Vec3.smul_def]
  rw [hupx]
  ring

/-- C4: for every radius > 0 (and positive reference spacing), the derived grid
LOD scale equals `10 ^ ⌊log10(radius / REFERENCE_SPACING)⌋` — always an exact
power of 10 — and the derived lodFade, the fractional part of that logarithm,
lies in `[0, 1)`. (The derivation is modelled from the spec; see `continuousLog`.) -/
theorem claim_C4_lod_scale_exact_power_of_ten :
    ∀ radius refSpacing : ℝ, 0 < radius → 0 < refSpacing →
      lodScale radius refSpacing
          = (10 : ℝ) ^ ⌊Real.logb 10 (radius / refSpacing)⌋ ∧
      (∃ k : ℤ, lodScale radius refSpacing = (10 : ℝ) ^ k) ∧
      lodFade radius refSpacing = Int.fract (continuousLog radius refSpacing) ∧
      0 ≤ lodFade radius refSpacing ∧ lodFade radius refSpacing < 1 := by
  intro radius refSpacing _ _
  have hfr : lodFade radius refSpacing = Int.fract (continuousLog radius refSpacing) := by
    unfold lodFade lodLevel Int.fract
    rfl
  refine ⟨rfl, ⟨lodLevel radius refSpacing, rfl⟩, hfr, ?_, ?_⟩
  · rw [hfr]; exact Int.fract_nonneg _
  · rw [hfr]; exact Int.fract_lt_one _

/-- Witness for C4 at `radius = 20`, `REFERENCE_SPACING = 1`. -/
theorem claim_C4_witness :
    (0 : ℝ) < 20 ∧ (0 : ℝ) < 1 ∧
    (lodScale 20 1 = (10 : ℝ) ^ ⌊Real.logb 10 ((20 : ℝ) / 1)⌋ ∧
     (∃ k : ℤ, lodScale 20 1 = (10 : ℝ) ^ k) ∧
     lodFade 20 1 = Int.fract (continuousLog 20 1) ∧
     0 ≤ lodFade 20 1 ∧ lodFade 20 1 < 1) :=
  ⟨by norm_num, by norm_num,
   claim_C4_lod_scale_exact_power_of_ten 20 1 (by norm_num) (by norm_num)⟩

lemma connect_vertex_not_in_cross (t c : Vec3) :
    make_vertex t COL_CONNECT ∉ push_cross c COL_TARGET := by
  simp only [push_cross, make_vertex, COL_TARGET, COL_CONNECT, List.mem_cons,
    List.not_mem_nil, or_false, LineVertex.mk.injEq]
  norm_num

/-- C9: the connecting line between target and its ground projection (and the
projection marker) is emitted iff `|target.z|` exceeds `Z_THRESHOLD`: with the
target exactly on the ground plane `DebugMesh::update` emits only the 6-vertex
target cross and no line; with the target offset vertically by 1.0 unit it also
emits the projection cross and the connecting line, 14 vertices in total. -/
theorem claim_C9_debug_line_iff_target_off_plane :
    (∀ t : Vec3,
      (debug_vertex_count t = 14 ↔ |t.z| > Z_THRESHOLD) ∧
      (debug_vertex_count t = 6 ↔ |t.z| ≤ Z_THRESHOLD) ∧
      (make_vertex t COL_CONNECT ∈ debug_update_verts t ↔ |t.z| > Z_THRESHOLD)) ∧
    debug_update_verts ⟨0, 0, 0⟩ = push_cross ⟨0, 0, 0⟩ COL_TARGET ∧
    debug_vertex_count ⟨0, 0, 0⟩ = 6 ∧
    debug_vertex_count ⟨0, 0, 1⟩ = 14 ∧
    make_vertex ⟨0, 0, 1⟩ COL_CONNECT ∈ debug_update_verts ⟨0, 0, 1⟩ := by
  have hgen : ∀ t : Vec3,
      (debug_vertex_count t = 14 ↔ |t.z| > Z_THRESHOLD) ∧
      (debug_vertex_count t = 6 ↔ |t.z| ≤ Z_THRESHOLD) ∧
      (make_vertex t COL_CONNECT ∈ debug_update_verts t ↔ |t.z| > Z_THRESHOLD) := by
    intro t
    by_cases h : |t.z| > Z_THRESHOLD
    · have h14 : debug_vertex_count t = 14 := by
        simp [debug_vertex_count, debug_update_verts, push_cross, h]
      have hmem : make_vertex t COL_CONNECT ∈ debug_update_verts t := by
        simp [debug_update_verts, h]
      refine ⟨⟨fun _ => h, fun _ => h14⟩, ?_, ⟨fun _ => h, fun _ => hmem⟩⟩
      constructor
      · intro h6
        rw [h14] at h6
        norm_num at h6
      · intro hle
        exact absurd h (not_lt.mpr hle)
    · have heq : debug_update_verts t = push_cross t COL_TARGET := by
        simp [debug_update_verts, h]
      have h6 : debug_vertex_count t = 6 := by
        simp [debug_vertex_count, heq, push_cross]
      have hle : |t.z| ≤ Z_THRESHOLD := not_lt.mp h
      refine ⟨?_, ⟨fun _ => hle, fun _ => h6⟩, ?_⟩
      · constructor
        · intro h14
          rw [h6] at h14
          norm_num at h14
        · intro hgt
          exact absurd hgt h
      · constructor
        · intro hmem
          rw [heq] at hmem
          exact absurd hmem (connect_vertex_not_in_cross t t)
        · intro hgt
          exact absurd hgt h
  refine ⟨hgen, ?_, ?_, ?_, ?_⟩
  · have h0 : ¬ |(Vec3.mk 0 0 0).z| > Z_THRESHOLD := by norm_num [Z_THRESHOLD]
    simp [debug_update_verts, h0]
    norm_num [Z_THRESHOLD]
  · exact (hgen ⟨0, 0, 0⟩).2.1.mpr (by norm_num [Z_THRESHOLD])
  · exact (hgen ⟨0, 0, 1⟩).1.mpr (by norm_num [Z_THRESHOLD])
  · exact (hgen ⟨0, 0, 1⟩).2.2.mpr (by norm_num [Z_THRESHOLD])

/-- C3: within the single render pass, draws are issued in the fixed order —
opaque cube (depth compare Less, depth write enabled), then opaque line geometry
(world axes, then the debug markers when present, sharing the axes pipeline),
and last the transparent grid, whose pipeline uses compare LessEqual with depth
writes disabled. -/
theorem claim_C3_render_pass_draw_order :
    ∀ cube_index_count axes_vertex_count dbg_vertex_count : ℕ,
      draw_pipelines
          (record_render_pass cube_index_count axes_vertex_count dbg_vertex_count)
          none
        = [some cube_pipeline, some axes_pipeline] ++
          (if 0 < dbg_vertex_count then [some axes_pipeline] else []) ++
          [some grid_pipeline] ∧
      cube_pipeline.depth_stencil
        = DepthStencilState.mk true CompareFunction.Less ∧
      axes_pipeline.depth_stencil
        = DepthStencilState.mk true CompareFunction.Less ∧
      grid_pipeline.depth_stencil
        = DepthStencilState.mk false CompareFunction.LessEqual := by
  intro a b d
  refine ⟨?_, rfl, rfl, rfl⟩
  by_cases h : 0 < d <;>
    simp [record_render_pass, draw_pipelines, h]

/-- C7 counterexample: the sub-mappings of `apply_input_to_camera` are not
order-insensitive. With the pan button held, pointer delta `(1, 0)` and scroll 1,
starting from the camera `(target 0, radius 20, azimuth 0, elevation π/6)`,
applying zoom before pan pans by `18 * PAN_SENSITIVITY` while applying pan
before zoom pans by `20 * PAN_SENSITIVITY`: the resulting targets differ. -/
theorem claim_C7_counterexample :
    ((apply_pan ⟨0, 0, 1, 0, false, true, false, 1, false⟩
        (apply_orbit ⟨0, 0, 1, 0, false, true, false, 1, false⟩
          (apply_zoom ⟨0, 0, 1, 0, false, true, false, 1, false⟩
            ⟨⟨0, 0, 0⟩, 20, 0, Real.pi / 6, 1, Real.pi / 4⟩))).target.x
      = (apply_zoom ⟨0, 0, 1, 0, false, true, false, 1, false⟩
          (apply_pan ⟨0, 0, 1, 0, false, true, false, 1, false⟩
            (apply_orbit ⟨0, 0, 1, 0, false, true, false, 1, false⟩
              ⟨⟨0, 0, 0⟩, 20, 0, Real.pi / 6, 1, Real.pi / 4⟩))).target.x) = False := by
  apply eq_false
  intro h
  norm_num [apply_orbit, apply_pan, apply_zoom, Camera.zoom, clamp,
    RADIUS_MIN, RADIUS_MAX, ZOOM_FACTOR, PAN_SENSITIVITY] at h
  rw [pan_target_x_azimuth_zero 18 _ _ 1 (Real.pi / 4) (by norm_num),
    pan_target_x_azimuth_zero 20 _ _ 1 (Real.pi / 4) (by norm_num)] at h
  norm_num at h

/-- C7 (amended): the orbit and zoom sub-mappings of `apply_input_to_camera` are
independent and order-insensitive within one frame, but the pan sub-mapping reads
the current radius (through the pan scale) and the orbit angles (through the view
basis), so its result depends on whether zoom or orbit have already been applied;
whenever the pan sub-mapping is inactive (pan button not held, or zero pointer
delta) it is the identity and all orderings of the three sub-mappings agree with
`apply_input_to_camera`. -/
theorem claim_C7_amended_order_sensitivity :
    ∀ (input : InputState) (c : Camera),
      apply_zoom input (apply_orbit input c) = apply_orbit input (apply_zoom input c) ∧
      (input.middle_held = false ∨ (input.mouse_dx = 0 ∧ input.mouse_dy = 0) →
        apply_pan input c = c ∧
        apply_zoom input (apply_pan input (apply_orbit input c))
            = apply_input_to_camera input c ∧
        apply_pan input (apply_zoom input (apply_orbit input c))
            = apply_input_to_camera input c ∧
        apply_pan input (apply_orbit input (apply_zoom input c))
            = apply_input_to_camera input c ∧
        apply_orbit input (apply_zoom input (apply_pan input c))
            = apply_input_to_camera input c ∧
        apply_orbit input (apply_pan input (apply_zoom input c))
            = apply_input_to_camera input c ∧
        apply_zoom input (apply_orbit input (apply_pan input c))
            = apply_input_to_camera input c) := by
  intro input c
  have hcomm : ∀ x : Camera,
      apply_zoom input (apply_orbit input x) = apply_orbit input (apply_zoom input x) := by
    intro x
    unfold apply_zoom apply_orbit
    split_ifs <;> rfl
  refine ⟨hcomm c, fun hinactive => ?_⟩
  have hpan : ∀ x : Camera, apply_pan input x = x := by
    intro x
    unfold apply_pan
    rcases hinactive with hm | hd
    · simp [hm]
    · simp [hd.1, hd.2]
  have hpi : apply_input_to_camera input c = apply_zoom input (apply_orbit input c) := by
    unfold apply_input_to_camera
    rw [hpan (apply_orbit input c)]
  refine ⟨hpan c, ?_, ?_, ?_, ?_, ?_, ?_⟩
  · rw [hpan (apply_orbit input c), hpi]
  · rw [hpan (apply_zoom input (apply_orbit input c)), hpi]
  · rw [hpan (apply_orbit input (apply_zoom input c)), hpi]
    exact (hcomm c).symm
  · rw [hpan c, hpi]
    exact (hcomm c).symm
  · rw [hpan (apply_zoom input c), hpi]
    exact (hcomm c).symm
  · rw [hpan c, hpi]

/-- Witness for C7 (amended) at an input snapshot with the pan button not held
and the default camera: the pan sub-mapping is the identity and all orderings
agree. -/
theorem claim_C7_witness :
    ((⟨0, 0, 0, 0, false, false, false, 0, false⟩ : InputState).middle_held = false ∨
      ((⟨0, 0, 0, 0, false, false, false, 0, false⟩ : InputState).mouse_dx = 0 ∧
       (⟨0, 0, 0, 0, false, false, false, 0, false⟩ : InputState).mouse_dy = 0)) ∧
    (apply_pan ⟨0, 0, 0, 0, false, false, false, 0, false⟩ (Camera.new 1) = Camera.new 1 ∧
     apply_zoom ⟨0, 0, 0, 0, false, false, false, 0, false⟩
         (apply_pan ⟨0, 0, 0, 0, false, false, false, 0, false⟩
           (apply_orbit ⟨0, 0, 0, 0, false, false, false, 0, false⟩ (Camera.new 1)))
         = apply_input_to_camera ⟨0, 0, 0, 0, false, false, false, 0, false⟩ (Camera.new 1) ∧
     apply_pan ⟨0, 0, 0, 0, false, false, false, 0, false⟩
         (apply_zoom ⟨0, 0, 0, 0, false, false, false, 0, false⟩
           (apply_orbit ⟨0, 0, 0, 0, false, false, false, 0, false⟩ (Camera.new 1)))
         = apply_input_to_camera ⟨0, 0, 0, 0, false, false, false, 0, false⟩ (Camera.new 1) ∧
     apply_pan ⟨0, 0, 0, 0, false, false, false, 0, false⟩
         (apply_orbit ⟨0, 0, 0, 0, false, false, false, 0, false⟩
           (apply_zoom ⟨0, 0, 0, 0, false, false, false, 0, false⟩ (Camera.new 1)))
         = apply_input_to_camera ⟨0, 0, 0, 0, false, false, false, 0, false⟩ (Camera.new 1) ∧
     apply_orbit ⟨0, 0, 0, 0, false, false, false, 0, false⟩
         (apply_zoom ⟨0, 0, 0, 0, false, false, false, 0, false⟩
           (apply_pan ⟨0, 0, 0, 0, false, false, false, 0, false⟩ (Camera.new 1)))
         = apply_input_to_camera ⟨0, 0, 0, 0, false, false, false, 0, false⟩ (Camera.new 1) ∧
     apply_orbit ⟨0, 0, 0, 0, false, false, false, 0, false⟩
         (apply_pan ⟨0, 0, 0, 0, false, false, false, 0, false⟩
           (apply_zoom ⟨0, 0, 0, 0, false, false, false, 0, false⟩ (Camera.new 1)))
         = apply_input_to_camera ⟨0, 0, 0, 0, false, false, false, 0, false⟩ (Camera.new 1) ∧
     apply_zoom ⟨0, 0, 0, 0, false, false, false, 0, false⟩
         (apply_orbit ⟨0, 0, 0, 0, false, false, false, 0, false⟩
           (apply_pan ⟨0, 0, 0, 0, false, false, false, 0, false⟩ (Camera.new 1)))
         = apply_input_to_camera ⟨0, 0, 0, 0, false, false, false, 0, false⟩ (Camera.new 1)) :=
  ⟨Or.inl rfl,
   (claim_C7_amended_order_sensitivity ⟨0, 0, 0, 0, false, false, false, 0, false⟩
       (Camera.new 1)).2 (Or.inl rfl)⟩

/-- C8 counterexample: as stated, the claim describes the grid uniform block as
holding four scalar fade/LOD parameters, but `GridUniform` declares exactly two
non-padding scalar fields (`fade_near`, `fade_far`). -/
theorem claim_C8_counterexample :
    scalarParamCount gridUniformFields = 2 ∧
    (scalarParamCount gridUniformFields = 4) = False :=
  ⟨by decide, eq_false (by decide)⟩

/-- C8 (amended): the camera uniform block is exactly 64 bytes (one 4×4
transform) and the grid uniform block is exactly 160 bytes — two 4×4 transforms,
a 3-component eye position padded to a 4-component slot, and two scalar fade
parameters plus trailing padding — with both total sizes asserted at build time. -/
theorem claim_C8_amended_uniform_sizes :
    structByteSize cameraUniformFields = 64 ∧
    structByteSize gridUniformFields = 160 ∧
    structByteSize cameraUniformFields = CAMERA_UNIFORM_ASSERTED_SIZE ∧
    structByteSize gridUniformFields = GRID_UNIFORM_ASSERTED_SIZE ∧
    fieldOffsets gridUniformFields 0 = [0, 64, 128, 140, 144, 148, 152] ∧
    fieldOffsets cameraUniformFields 0 = [0] ∧
    (gridUniformFields.map fun f => f.ty).take 2
        = [FieldTy.mat4x4f, FieldTy.mat4x4f] ∧
    scalarParamCount gridUniformFields = 2 := by
  decide

end

end Kyzu
